import Mathlib

/-!
# flagd: remote HTTP sync source and provider lookup

A shallow embedding of `pkg/sync/http_sync.go` (the `HttpSync` sync source: one-shot
`Fetch`, the body of the scheduled function registered by `Notify`, and the fingerprint
`generateSha`) and of the three provider lookups of `cmd/start.go`.

Conventions of the embedding.

* A Go `[]byte` is a `List UInt8`.  A Go `string` that holds configuration text or the
  base64 fingerprint is a Lean `String`; the Go `string(body)` returned by `Fetch` is kept
  as its byte sequence, because the conversion copies the bytes unchanged.
* A Go `error` result is an `Option GoError`, `none` being `nil`; a Go multiple return
  `(x, err)` is a pair.
* The pointer receiver `fs *HttpSync` is explicit state passing: operations that assign to
  a field return the new struct.
* A send `w <- v` on the notification channel appends `v` to the list of emitted values.
* The network is a parameter (`Net`): it decides whether the URL parses, what
  `Client.Do` answers and what reading the response body yields.
* Log calls have no effect on the state or on the channel and are left out.
-/

namespace Flagd

/-- A Go byte slice. -/
abbrev Bytes := List UInt8

/-! ## `crypto/sha1` and `encoding/base64` as used by `generateSha` -/

namespace Sha1

/-- Rotate a 32-bit word left by `n` bits (`bits.RotateLeft32`). -/
def rotl (n x : Nat) : Nat := ((x <<< n) ||| (x >>> (32 - n))) % 2 ^ 32

/-- Addition of 32-bit words. -/
def add32 (x y : Nat) : Nat := (x + y) % 2 ^ 32

/-- Bitwise complement of a 32-bit word. -/
def not32 (x : Nat) : Nat := 2 ^ 32 - 1 - x % 2 ^ 32

/-- The `n` low bytes of `x`, most significant first. -/
def beBytes : Nat → Nat → Bytes
  | 0, _ => []
  | n + 1, x => UInt8.ofNat ((x >>> (8 * n)) % 256) :: beBytes n x

/-- Big-endian value of a byte sequence. -/
def beValue (bs : Bytes) : Nat := bs.foldl (fun acc b => acc * 256 + b.toNat) 0

/-- Message padding: a `0x80` byte, zero bytes up to 56 modulo 64, then the bit length on
eight bytes, most significant first. -/
def pad (msg : Bytes) : Bytes :=
  msg ++ [(0x80 : UInt8)] ++ List.replicate ((119 - msg.length % 64) % 64) (0 : UInt8)
    ++ beBytes 8 ((8 * msg.length) % 2 ^ 64)

/-- The big-endian 32-bit words of a byte sequence, `n` of them. -/
def toWords : Nat → Bytes → List Nat
  | 0, _ => []
  | n + 1, bs => beValue (bs.take 4) :: toWords n (bs.drop 4)

/-- Extend the message schedule by `n` words. -/
def extend : Nat → List Nat → List Nat
  | 0, w => w
  | n + 1, w =>
    let i := w.length
    extend n (w ++ [rotl 1 (w.getD (i - 3) 0 ^^^ w.getD (i - 8) 0 ^^^ w.getD (i - 14) 0
      ^^^ w.getD (i - 16) 0)])

/-- The five chaining words. -/
structure Digest where
  h0 : Nat
  h1 : Nat
  h2 : Nat
  h3 : Nat
  h4 : Nat
  deriving DecidableEq, Repr

/-- Initial chaining value. -/
def init : Digest := ⟨0x67452301, 0xEFCDAB89, 0x98BADCFE, 0x10325476, 0xC3D2E1F0⟩

/-- Round function and constant of round `i`. -/
def roundFK (i b c d : Nat) : Nat × Nat :=
  if i < 20 then ((b &&& c) ||| (not32 b &&& d), 0x5A827999)
  else if i < 40 then (b ^^^ c ^^^ d, 0x6ED9EBA1)
  else if i < 60 then ((b &&& c) ||| (b &&& d) ||| (c &&& d), 0x8F1BBCDC)
  else (b ^^^ c ^^^ d, 0xCA62C1D6)

/-- Run the rounds over the schedule words, the first of which has index `i`. -/
def rounds : Nat → List Nat → Digest → Digest
  | _, [], s => s
  | i, w :: ws, s =>
    let fk := roundFK i s.h1 s.h2 s.h3
    let t := add32 (add32 (add32 (add32 (rotl 5 s.h0) fk.1) s.h4) fk.2) w
    rounds (i + 1) ws ⟨t, s.h0, rotl 30 s.h1, s.h2, s.h3⟩

/-- Compress one 64-byte block into the chaining value. -/
def block (s : Digest) (blk : Bytes) : Digest :=
  let r := rounds 0 (extend 64 (toWords 16 blk)) s
  ⟨add32 s.h0 r.h0, add32 s.h1 r.h1, add32 s.h2 r.h2, add32 s.h3 r.h3, add32 s.h4 r.h4⟩

/-- Compress `n` consecutive blocks. -/
def blocks : Nat → Bytes → Digest → Digest
  | 0, _, s => s
  | n + 1, bs, s => blocks n (bs.drop 64) (block s (bs.take 64))

/-- The 20-byte SHA-1 digest of a message (`sha1.New`, `Write`, `Sum(nil)`). -/
def sum (msg : Bytes) : Bytes :=
  let p := pad msg
  let s := blocks (p.length / 64) p init
  beBytes 4 s.h0 ++ beBytes 4 s.h1 ++ beBytes 4 s.h2 ++ beBytes 4 s.h3 ++ beBytes 4 s.h4

end Sha1

namespace Base64

/-- The URL-safe alphabet of `base64.URLEncoding`. -/
def alphabet : List Char :=
  "ABCDEFGHIJKLMNOPQRSTUVWXYZabcdefghijklmnopqrstuvwxyz0123456789-_".data

/-- The character of a 6-bit value. -/
def digit (v : Nat) : Char := alphabet.getD (v % 64) 'A'

/-- Padded encoding (`base64.URLEncoding.EncodeToString`), three bytes to four
characters. -/
def encode : Bytes → List Char
  | [] => []
  | [a] =>
    let v := a.toNat <<< 16
    [digit (v >>> 18), digit (v >>> 12), '=', '=']
  | [a, b] =>
    let v := (a.toNat <<< 16) ||| (b.toNat <<< 8)
    [digit (v >>> 18), digit (v >>> 12), digit (v >>> 6), '=']
  | a :: b :: c :: rest =>
    let v := (a.toNat <<< 16) ||| (b.toNat <<< 8) ||| c.toNat
    digit (v >>> 18) :: digit (v >>> 12) :: digit (v >>> 6) :: digit v :: encode rest

end Base64

/-- The fingerprint of a body: `generateSha` of `http_sync.go`, the URL-safe base64 text of
the SHA-1 digest. -/
def generateSha (body : Bytes) : String :=
  String.mk (Base64.encode (Sha1.sum body))

/-! ## Go values used by the sync source -/

/-- A Go error value, identified by its message. -/
structure GoError where
  msg : String
  deriving DecidableEq, Repr

/-- The call `errors.New`. -/
def errors.New (text : String) : GoError := ⟨text⟩

/-- The header of a request: key and value pairs in insertion order. -/
abbrev Header := List (String × String)

/-- The method `Header.Add`: append a value for the key. -/
def Header.Add (h : Header) (key value : String) : Header := h ++ [(key, value)]

/-- The method `Header.Set`: replace the values of the key by one value. -/
def Header.Set (h : Header) (key value : String) : Header :=
  h.filter (fun kv => kv.1 != key) ++ [(key, value)]

/-- The part of `http.Request` that `fetchBodyFromURL` fills in. -/
structure Request where
  Method : String
  URL : String
  Header : Header
  Body : Bytes
  deriving DecidableEq, Repr

/-- The body stream of a response: the bytes it delivers and the error that ends the
stream, `none` when it ends normally. -/
structure BodyReader where
  data : Bytes
  err : Option GoError
  deriving DecidableEq, Repr

/-- The part of `http.Response` that `fetchBodyFromURL` reads. -/
structure Response where
  Body : BodyReader
  deriving DecidableEq, Repr

/-- The `http.Client` of the sync source: its timeout in nanoseconds. -/
structure Client where
  Timeout : Nat
  deriving DecidableEq, Repr

/-- The duration `time.Second`, in nanoseconds. -/
def time.Second : Nat := 1000000000

/-- What lies outside the program at one moment: whether a URL is accepted when a request
is built (`some err` when it is not), and what the server answers to a request sent
through a client. -/
structure Net where
  parseURL : String → Option GoError
  roundTrip : Client → Request → Except GoError Response

/-- The call `http.NewRequest`: fails when the URL is rejected. -/
def http.NewRequest (net : Net) (method url : String) (body : Bytes) :
    Except GoError Request :=
  match net.parseURL url with
  | some err => .error err
  | none => .ok { Method := method, URL := url, Header := [], Body := body }

/-- The method `Client.Do`. -/
def Client.Do (net : Net) (c : Client) (req : Request) : Except GoError Response :=
  net.roundTrip c req

/-- The call `ioutil.ReadAll`: the bytes read until the stream ended, and the error that
ended it if it was not the end of the data. -/
def ioutil.ReadAll (r : BodyReader) : Bytes × Option GoError := (r.data, r.err)

/-! ## `pkg/sync/http_sync.go` -/

/-- Modelled from the spec: the kinds of notification event, Create, Modify and Delete,
declared elsewhere in package `sync`. -/
inductive E_EVENT_TYPE where
  | E_EVENT_TYPE_CREATE
  | E_EVENT_TYPE_MODIFY
  | E_EVENT_TYPE_DELETE
  deriving DecidableEq, Repr

export E_EVENT_TYPE (E_EVENT_TYPE_CREATE E_EVENT_TYPE_MODIFY E_EVENT_TYPE_DELETE)

/-- Modelled from the spec: an event is a tagged value carrying its kind and no payload;
the struct is declared elsewhere in package `sync`. -/
structure Event where
  EventType : E_EVENT_TYPE
  deriving DecidableEq, Repr

/-- Modelled from the spec: the value sent on the notification channel wraps one event;
the struct is declared elsewhere in package `sync`. -/
structure Notifier where
  Event : Event
  deriving DecidableEq, Repr

/-- The struct `HttpSync`.  The client pointer is taken to be non-nil, as `findSync`
builds it. -/
structure HttpSync where
  URI : String
  Client : Client
  BearerToken : String
  LastBodySHA : String
  deriving DecidableEq, Repr

/-- Lines 29 to 34 of `fetchBodyFromURL`: the `Accept` header, and the `Authorization`
header when a bearer token is configured. -/
def HttpSync.addHeaders (fs : HttpSync) (req : Request) : Request :=
  let req := { req with Header := req.Header.Add "Accept" "application/json" }
  if fs.BearerToken ≠ "" then
    let bearer := "Bearer " ++ fs.BearerToken
    { req with Header := req.Header.Set "Authorization" bearer }
  else req

/-- The method `fetchBodyFromURL`: every failing step returns the empty byte slice
together with the error. -/
def HttpSync.fetchBodyFromURL (net : Net) (fs : HttpSync) (url : String) :
    Bytes × Option GoError :=
  match http.NewRequest net "GET" url [] with
  | .error err => ([], some err)
  | .ok req =>
    match Client.Do net fs.Client (fs.addHeaders req) with
    | .error err => ([], some err)
    | .ok resp =>
      match ioutil.ReadAll resp.Body with
      | (_, some err) => ([], some err)
      | (body, none) => (body, none)

/-- The method `Fetch`: the struct after the call, the returned payload (the bytes of the
Go string) and the returned error. -/
def HttpSync.Fetch (net : Net) (fs : HttpSync) : HttpSync × Bytes × Option GoError :=
  if fs.URI = "" then (fs, [], some (errors.New "no HTTP URL string set"))
  else
    let r := fs.fetchBodyFromURL net fs.URI
    let fs := if r.1.length ≠ 0 then { fs with LastBodySHA := generateSha r.1 } else fs
    (fs, r.1, r.2)

/-- The function that `Notify` registers with the scheduler, run once: the struct after
the run and the values sent on the channel `w`, in order. -/
def HttpSync.Notify.tick (net : Net) (fs : HttpSync) : HttpSync × List Notifier :=
  match fs.fetchBodyFromURL net fs.URI with
  | (_, some _) => (fs, [])
  | (body, none) =>
    if body.length = 0 then
      (fs, [{ Event := { EventType := E_EVENT_TYPE_DELETE } }])
    else if fs.LastBodySHA = "" then
      (fs, [{ Event := { EventType := E_EVENT_TYPE_CREATE } }])
    else
      let currentSHA := generateSha body
      let sent : List Notifier :=
        if fs.LastBodySHA ≠ currentSHA then
          [{ Event := { EventType := E_EVENT_TYPE_MODIFY } }]
        else []
      ({ fs with LastBodySHA := currentSHA }, sent)

/-- The method `Notify` over the successive firings of its schedule, each firing running
to completion under the network conditions of its moment: the final struct and all
values sent on the channel. -/
def HttpSync.Notify (fs : HttpSync) : List Net → HttpSync × List Notifier
  | [] => (fs, [])
  | net :: rest =>
    let r := HttpSync.Notify.tick net fs
    let r2 := HttpSync.Notify r.1 rest
    (r2.1, r.2 ++ r2.2)

/-! ## `cmd/start.go` -/

/-- The package-level variables of `cmd/start.go` that the lookups read. -/
structure Config where
  uri : String
  httpServicePort : Int
  bearerToken : String
  deriving DecidableEq, Repr

/-- Modelled from the spec: the configuration of the HTTP transport service, its
listening port; the struct is declared elsewhere in package `service`. -/
structure HttpServiceConfiguration where
  Port : Int
  deriving DecidableEq, Repr

/-- Modelled from the spec: the HTTP transport service, declared elsewhere in package
`service`. -/
structure HttpService where
  HttpServiceConfiguration : HttpServiceConfiguration
  deriving DecidableEq, Repr

/-- The implementations of interface `IService` that are registered. -/
inductive IService where
  | HttpService (s : HttpService)
  deriving DecidableEq, Repr

/-- Modelled from the spec: the local-path sync source with its path, declared elsewhere
in package `sync`. -/
structure FilePathSync where
  URI : String
  deriving DecidableEq, Repr

/-- The implementations of interface `ISync` that are registered. -/
inductive ISync where
  | FilePathSync (s : FilePathSync)
  | HttpSync (s : HttpSync)
  deriving DecidableEq, Repr

/-- Modelled from the spec: the JSON evaluator, a struct built without fields, declared
elsewhere in package `eval`. -/
structure JsonEvaluator where
  deriving DecidableEq, Repr

/-- The implementations of interface `IEvaluator` that are registered. -/
inductive IEvaluator where
  | JsonEvaluator (e : JsonEvaluator)
  deriving DecidableEq, Repr

/-- The function `findService`: the map literal is an association list and the index
expression with `ok` is `List.lookup`. -/
def findService (cfg : Config) (name : String) : Option IService × Option GoError :=
  let registeredServices : List (String × IService) :=
    [("http", .HttpService { HttpServiceConfiguration := { Port := cfg.httpServicePort } })]
  match registeredServices.lookup name with
  | none => (none, some (errors.New "no service-provider set"))
  | some v => (some v, none)

/-- The function `findSync`. -/
def findSync (cfg : Config) (name : String) : Option ISync × Option GoError :=
  let registeredSync : List (String × ISync) :=
    [("filepath", .FilePathSync { URI := cfg.uri }),
     ("remote", .HttpSync
        { URI := cfg.uri, BearerToken := cfg.bearerToken,
          Client := { Timeout := time.Second * 10 }, LastBodySHA := "" })]
  match registeredSync.lookup name with
  | none => (none, some (errors.New "no sync-provider set"))
  | some v => (some v, none)

/-- The function `findEvaluator`. -/
def findEvaluator (name : String) : Option IEvaluator × Option GoError :=
  let registeredEvaluators : List (String × IEvaluator) :=
    [("json", .JsonEvaluator {})]
  match registeredEvaluators.lookup name with
  | none => (none, some (errors.New "no evaluator set"))
  | some v => (some v, none)

/-! ## Concrete inputs -/

/-- A network whose server answers every request with the given body. -/
def serving (body : Bytes) : Net :=
  { parseURL := fun _ => none, roundTrip := fun _ _ => .ok { Body := { data := body, err := none } } }

/-- A network on which every request fails. -/
def unreachable : Net :=
  { parseURL := fun _ => none, roundTrip := fun _ _ => .error (errors.New "connection refused") }

/-- A network whose server answers, and whose body stream breaks after the given bytes. -/
def breaking (part : Bytes) : Net :=
  { parseURL := fun _ => none,
    roundTrip := fun _ _ => .ok { Body := { data := part, err := some (errors.New "unexpected EOF") } } }

/-- A network under which no URL is accepted. -/
def rejecting : Net :=
  { parseURL := fun _ => some (errors.New "invalid URL"), roundTrip := fun _ _ => .ok { Body := { data := [1], err := none } } }

/-- A remote source as `findSync` builds it, with the given stored fingerprint. -/
def remote (sha : String) : HttpSync :=
  { URI := "http://flags.example/flags.json", Client := { Timeout := time.Second * 10 },
    BearerToken := "", LastBodySHA := sha }

set_option maxRecDepth 100000

/-! ## Auxiliary facts -/

theorem Sha1.sum_ne_nil (msg : Bytes) : Sha1.sum msg ≠ [] := by
  simp [Sha1.sum, Sha1.beBytes]

theorem Base64.encode_ne_nil (bs : Bytes) (h : bs ≠ []) : Base64.encode bs ≠ [] := by
  match bs, h with
  | [_], _ => simp [Base64.encode]
  | [_, _], _ => simp [Base64.encode]
  | _ :: _ :: _ :: _, _ => simp [Base64.encode]

/-- A fingerprint is never the empty string. -/
theorem generateSha_ne_empty (body : Bytes) : generateSha body ≠ "" := by
  intro h
  have h2 := congrArg String.data h
  exact Base64.encode_ne_nil _ (Sha1.sum_ne_nil body) h2

theorem length_ne_zero_of_ne_nil {B : Bytes} (h : B ≠ []) : ¬ B.length = 0 := by
  simpa using h

/-- Whenever `fetchBodyFromURL` returns an error, the body it returns is empty. -/
theorem fetchBodyFromURL_error_body (net : Net) (fs : HttpSync) (url : String) :
    (fs.fetchBodyFromURL net url).2 = none ∨ (fs.fetchBodyFromURL net url).1 = [] := by
  unfold HttpSync.fetchBodyFromURL
  split
  · simp
  · split
    · simp
    · split <;> simp

/-- A run of the scheduled function that fetches a non-empty body while a fingerprint is
stored: the fingerprint of the body is stored, and Modify is sent when it is new. -/
theorem tick_present (net : Net) (fs : HttpSync) (B : Bytes) (hB : B ≠ [])
    (hpresent : fs.LastBodySHA ≠ "") (h : fs.fetchBodyFromURL net fs.URI = (B, none)) :
    HttpSync.Notify.tick net fs =
      ({ fs with LastBodySHA := generateSha B },
        if fs.LastBodySHA ≠ generateSha B then
          [{ Event := { EventType := E_EVENT_TYPE_MODIFY } }]
        else []) := by
  simp [HttpSync.Notify.tick, h, length_ne_zero_of_ne_nil hB, hpresent]

/-- A run of the scheduled function that fetches a non-empty body while no fingerprint is
stored sends Create. -/
theorem tick_absent (net : Net) (fs : HttpSync) (B : Bytes) (hB : B ≠ [])
    (habsent : fs.LastBodySHA = "") (h : fs.fetchBodyFromURL net fs.URI = (B, none)) :
    HttpSync.Notify.tick net fs = (fs, [{ Event := { EventType := E_EVENT_TYPE_CREATE } }]) := by
  simp [HttpSync.Notify.tick, h, length_ne_zero_of_ne_nil hB, habsent]

/-- A run of the scheduled function that fetches the empty body sends Delete. -/
theorem tick_empty (net : Net) (fs : HttpSync)
    (h : fs.fetchBodyFromURL net fs.URI = ([], none)) :
    HttpSync.Notify.tick net fs = (fs, [{ Event := { EventType := E_EVENT_TYPE_DELETE } }]) := by
  simp [HttpSync.Notify.tick, h]

/-! ## Checks of the fingerprint on known digests -/

theorem generateSha_empty : generateSha [] = "2jmj7l5rSw0yVb_vlWAYkK_YBwk=" := by decide!

theorem generateSha_abc : generateSha [97, 98, 99] = "qZk-NkcGgWq6PiVxeFDCbJzQ2J0=" := by
  decide!

/-! ## The claims -/

/-- C1: a run of the scheduled function of `Notify` whose fetch succeeds with an empty
body sends exactly one value, of kind Delete, and leaves the struct, so also
`LastBodySHA`, unchanged, whatever the stored fingerprint is. -/
theorem notify_empty_body_delete (net : Net) (fs : HttpSync)
    (h : fs.fetchBodyFromURL net fs.URI = ([], none)) :
    HttpSync.Notify.tick net fs = (fs, [{ Event := { EventType := E_EVENT_TYPE_DELETE } }]) := by
  simp [HttpSync.Notify.tick, h]

theorem notify_empty_body_delete_witness :
    ((remote "").fetchBodyFromURL (serving []) (remote "").URI = ([], none) ∧
      HttpSync.Notify.tick (serving []) (remote "")
        = (remote "", [{ Event := { EventType := E_EVENT_TYPE_DELETE } }])) ∧
    ((remote "abc").fetchBodyFromURL (serving []) (remote "abc").URI = ([], none) ∧
      HttpSync.Notify.tick (serving []) (remote "abc")
        = (remote "abc", [{ Event := { EventType := E_EVENT_TYPE_DELETE } }])) :=
  ⟨⟨rfl, notify_empty_body_delete (serving []) (remote "") rfl⟩,
   ⟨rfl, notify_empty_body_delete (serving []) (remote "abc") rfl⟩⟩

/-- C2: with a stored fingerprint that is present and differs from the fingerprint of the
fetched non-empty body `B`, a run of the scheduled function sends exactly one value, of
kind Modify, and afterwards `LastBodySHA` is `generateSha B`. -/
theorem notify_changed_body_modify (net : Net) (fs : HttpSync) (B : Bytes)
    (hB : B ≠ []) (hpresent : fs.LastBodySHA ≠ "") (hdiff : fs.LastBodySHA ≠ generateSha B)
    (h : fs.fetchBodyFromURL net fs.URI = (B, none)) :
    (HttpSync.Notify.tick net fs).2 = [{ Event := { EventType := E_EVENT_TYPE_MODIFY } }] ∧
    (HttpSync.Notify.tick net fs).1.LastBodySHA = generateSha B ∧
    (HttpSync.Notify.tick net fs).1 = { fs with LastBodySHA := generateSha B } := by
  simp [HttpSync.Notify.tick, h, length_ne_zero_of_ne_nil hB, hpresent, hdiff]

theorem notify_changed_body_modify_witness :
    (HttpSync.Notify.tick (serving [97, 98, 99]) (remote "2jmj7l5rSw0yVb_vlWAYkK_YBwk=")).2
        = [{ Event := { EventType := E_EVENT_TYPE_MODIFY } }] ∧
    (HttpSync.Notify.tick (serving [97, 98, 99])
        (remote "2jmj7l5rSw0yVb_vlWAYkK_YBwk=")).1.LastBodySHA = generateSha [97, 98, 99] ∧
    (HttpSync.Notify.tick (serving [97, 98, 99]) (remote "2jmj7l5rSw0yVb_vlWAYkK_YBwk=")).1
        = { remote "2jmj7l5rSw0yVb_vlWAYkK_YBwk=" with
            LastBodySHA := generateSha [97, 98, 99] } :=
  notify_changed_body_modify (serving [97, 98, 99]) (remote "2jmj7l5rSw0yVb_vlWAYkK_YBwk=")
    [97, 98, 99] (by decide) (by decide) (by decide!) rfl

/-- C3: with a stored fingerprint equal to the fingerprint of the fetched non-empty body
`B`, a run of the scheduled function sends nothing and leaves `LastBodySHA` (and the whole
struct) unchanged. -/
theorem notify_same_body_silent (net : Net) (fs : HttpSync) (B : Bytes)
    (hB : B ≠ []) (hsame : fs.LastBodySHA = generateSha B)
    (h : fs.fetchBodyFromURL net fs.URI = (B, none)) :
    HttpSync.Notify.tick net fs = (fs, []) := by
  have hne : fs.LastBodySHA ≠ "" := hsame ▸ generateSha_ne_empty B
  simp [HttpSync.Notify.tick, h, length_ne_zero_of_ne_nil hB, hne, ← hsame]

theorem notify_same_body_silent_witness :
    HttpSync.Notify.tick (serving [97, 98, 99]) (remote "qZk-NkcGgWq6PiVxeFDCbJzQ2J0=")
      = (remote "qZk-NkcGgWq6PiVxeFDCbJzQ2J0=", []) :=
  notify_same_body_silent (serving [97, 98, 99]) (remote "qZk-NkcGgWq6PiVxeFDCbJzQ2J0=")
    [97, 98, 99] (by decide) (by decide!) rfl

/-- C4: with no stored fingerprint, a run of the scheduled function that fetches a
non-empty body sends exactly one value, of kind Create, so no Modify and no Delete. -/
theorem notify_first_body_create (net : Net) (fs : HttpSync) (B : Bytes)
    (hB : B ≠ []) (habsent : fs.LastBodySHA = "")
    (h : fs.fetchBodyFromURL net fs.URI = (B, none)) :
    (HttpSync.Notify.tick net fs).2 = [{ Event := { EventType := E_EVENT_TYPE_CREATE } }] := by
  simp [HttpSync.Notify.tick, h, length_ne_zero_of_ne_nil hB, habsent]

theorem notify_first_body_create_witness :
    (HttpSync.Notify.tick (serving [97, 98, 99]) (remote "")).2
      = [{ Event := { EventType := E_EVENT_TYPE_CREATE } }] :=
  notify_first_body_create (serving [97, 98, 99]) (remote "") [97, 98, 99] (by decide) rfl rfl

/-- C5: a run of the scheduled function whose fetch returns an error carries the empty
body, sends nothing and leaves the struct, so also `LastBodySHA`, unchanged; the firings
that follow behave as if the failed one had not happened. -/
theorem notify_fetch_error_silent (net : Net) (fs : HttpSync) (body : Bytes) (err : GoError)
    (h : fs.fetchBodyFromURL net fs.URI = (body, some err)) :
    body = [] ∧ HttpSync.Notify.tick net fs = (fs, []) ∧
    ∀ rest : List Net, HttpSync.Notify fs (net :: rest) = HttpSync.Notify fs rest := by
  have ht : HttpSync.Notify.tick net fs = (fs, []) := by
    simp [HttpSync.Notify.tick, h]
  refine ⟨?_, ht, ?_⟩
  · have h1 := fetchBodyFromURL_error_body net fs fs.URI
    rw [h] at h1
    simpa using h1
  · intro rest
    simp [HttpSync.Notify, ht]

theorem notify_fetch_error_silent_witness :
    ([] : Bytes) = [] ∧ HttpSync.Notify.tick unreachable (remote "abc") = (remote "abc", []) ∧
    ∀ rest : List Net,
      HttpSync.Notify (remote "abc") (unreachable :: rest) = HttpSync.Notify (remote "abc") rest :=
  notify_fetch_error_silent unreachable (remote "abc") [] (errors.New "connection refused") rfl

/-- C6, as the code has it: when a fingerprint is stored, two consecutive runs of the
scheduled function that fetch non-empty payloads `P1` and then `P2` with different
fingerprints send exactly one Modify for the second fetch, and `LastBodySHA` after the two
runs is `generateSha P2`. -/
theorem notify_two_fetches_modify (net1 net2 : Net) (fs : HttpSync) (P1 P2 : Bytes)
    (hP1 : P1 ≠ []) (hP2 : P2 ≠ []) (hne : generateSha P1 ≠ generateSha P2)
    (hpresent : fs.LastBodySHA ≠ "")
    (h1 : fs.fetchBodyFromURL net1 fs.URI = (P1, none))
    (h2 : (HttpSync.Notify.tick net1 fs).1.fetchBodyFromURL net2
            (HttpSync.Notify.tick net1 fs).1.URI = (P2, none)) :
    (HttpSync.Notify.tick net2 (HttpSync.Notify.tick net1 fs).1).2
        = [{ Event := { EventType := E_EVENT_TYPE_MODIFY } }] ∧
    (HttpSync.Notify.tick net2 (HttpSync.Notify.tick net1 fs).1).1.LastBodySHA
        = generateSha P2 ∧
    (HttpSync.Notify fs [net1, net2]).1.LastBodySHA = generateSha P2 := by
  have e1 := tick_present net1 fs P1 hP1 hpresent h1
  rw [e1] at h2
  have e2 := tick_present net2 { fs with LastBodySHA := generateSha P1 } P2 hP2
    (generateSha_ne_empty P1) h2
  simp [HttpSync.Notify, e1, e2, hne]

theorem notify_two_fetches_modify_witness :
    (HttpSync.Notify.tick (serving [97, 98, 99])
        (HttpSync.Notify.tick (serving [1]) (remote "abc")).1).2
        = [{ Event := { EventType := E_EVENT_TYPE_MODIFY } }] ∧
    (HttpSync.Notify.tick (serving [97, 98, 99])
        (HttpSync.Notify.tick (serving [1]) (remote "abc")).1).1.LastBodySHA
        = generateSha [97, 98, 99] ∧
    (HttpSync.Notify (remote "abc") [serving [1], serving [97, 98, 99]]).1.LastBodySHA
        = generateSha [97, 98, 99] :=
  notify_two_fetches_modify (serving [1]) (serving [97, 98, 99]) (remote "abc") [1]
    [97, 98, 99] (by decide) (by decide) (by decide!) (by decide) rfl rfl

/-- C6 fails when no fingerprint is stored: the first run sends Create and stores
nothing, so the second run sends Create again, not Modify, and `LastBodySHA` is still
empty. -/
theorem notify_two_fetches_absent_counterexample :
    ([1] : Bytes) ≠ [] ∧ ([2] : Bytes) ≠ [] ∧ generateSha [1] ≠ generateSha [2] ∧
    (remote "").fetchBodyFromURL (serving [1]) (remote "").URI = ([1], none) ∧
    (HttpSync.Notify.tick (serving [1]) (remote "")).1.fetchBodyFromURL (serving [2])
        (HttpSync.Notify.tick (serving [1]) (remote "")).1.URI = ([2], none) ∧
    (HttpSync.Notify.tick (serving [2]) (HttpSync.Notify.tick (serving [1]) (remote "")).1).2
        = [{ Event := { EventType := E_EVENT_TYPE_CREATE } }] ∧
    (HttpSync.Notify.tick (serving [2])
        (HttpSync.Notify.tick (serving [1]) (remote "")).1).1.LastBodySHA = "" ∧
    ¬ ((HttpSync.Notify.tick (serving [2])
          (HttpSync.Notify.tick (serving [1]) (remote "")).1).2
          = [{ Event := { EventType := E_EVENT_TYPE_MODIFY } }] ∧
       (HttpSync.Notify.tick (serving [2])
          (HttpSync.Notify.tick (serving [1]) (remote "")).1).1.LastBodySHA
          = generateSha [2]) := by
  decide!

/-- C7, as the code has it: when the stored fingerprint differs from the fingerprint of
the non-empty payload `P1`, a run that fetches the empty payload sends Delete and the next
run, fetching `P1`, sends exactly one value, of kind Modify or Create.  A source that
fetched `P1` in a run started with no stored fingerprint is in that situation: the run
sends Create and leaves the fingerprint empty. -/
theorem notify_reappearance (net0 netE netP : Net) (fs0 fs : HttpSync) (P1 : Bytes)
    (hP1 : P1 ≠ [])
    (hdiff : fs.LastBodySHA ≠ generateSha P1)
    (hE : fs.fetchBodyFromURL netE fs.URI = ([], none))
    (hP : (HttpSync.Notify.tick netE fs).1.fetchBodyFromURL netP
            (HttpSync.Notify.tick netE fs).1.URI = (P1, none))
    (habsent : fs0.LastBodySHA = "")
    (h0 : fs0.fetchBodyFromURL net0 fs0.URI = (P1, none)) :
    ((HttpSync.Notify.tick netE fs).2 = [{ Event := { EventType := E_EVENT_TYPE_DELETE } }] ∧
     ((HttpSync.Notify.tick netP (HttpSync.Notify.tick netE fs).1).2
         = [{ Event := { EventType := E_EVENT_TYPE_MODIFY } }] ∨
      (HttpSync.Notify.tick netP (HttpSync.Notify.tick netE fs).1).2
         = [{ Event := { EventType := E_EVENT_TYPE_CREATE } }])) ∧
    ((HttpSync.Notify.tick net0 fs0).2 = [{ Event := { EventType := E_EVENT_TYPE_CREATE } }] ∧
     (HttpSync.Notify.tick net0 fs0).1.LastBodySHA ≠ generateSha P1) := by
  have eE := tick_empty netE fs hE
  rw [eE] at hP
  have e0 := tick_absent net0 fs0 P1 hP1 habsent h0
  refine ⟨⟨by rw [eE], ?_⟩, by rw [e0], ?_⟩
  · rw [eE]
    by_cases hs : fs.LastBodySHA = ""
    · right
      rw [tick_absent netP fs P1 hP1 hs hP]
    · left
      rw [tick_present netP fs P1 hP1 hs hP]
      simp [hdiff]
  · rw [e0, habsent]
    exact fun h => generateSha_ne_empty P1 h.symm

theorem notify_reappearance_witness :
    ((HttpSync.Notify.tick (serving []) (HttpSync.Notify.tick (serving [1]) (remote "")).1).2
        = [{ Event := { EventType := E_EVENT_TYPE_DELETE } }] ∧
     ((HttpSync.Notify.tick (serving [1])
         (HttpSync.Notify.tick (serving [])
           (HttpSync.Notify.tick (serving [1]) (remote "")).1).1).2
         = [{ Event := { EventType := E_EVENT_TYPE_MODIFY } }] ∨
      (HttpSync.Notify.tick (serving [1])
         (HttpSync.Notify.tick (serving [])
           (HttpSync.Notify.tick (serving [1]) (remote "")).1).1).2
         = [{ Event := { EventType := E_EVENT_TYPE_CREATE } }])) ∧
    ((HttpSync.Notify.tick (serving [1]) (remote "")).2
        = [{ Event := { EventType := E_EVENT_TYPE_CREATE } }] ∧
     (HttpSync.Notify.tick (serving [1]) (remote "")).1.LastBodySHA ≠ generateSha [1]) :=
  notify_reappearance (serving [1]) (serving []) (serving [1]) (remote "")
    (HttpSync.Notify.tick (serving [1]) (remote "")).1 [1] (by decide) (by decide!) rfl rfl
    rfl rfl

/-- C7 fails for a source that fetched `P1` through `Fetch`: `Fetch` stores the
fingerprint of `P1`, the run that fetches the empty payload sends Delete and keeps that
fingerprint, and the run that fetches `P1` again sends nothing. -/
theorem notify_reappearance_after_fetch_counterexample :
    ([1] : Bytes) ≠ [] ∧
    (HttpSync.Fetch (serving [1]) (remote "")).2 = ([1], none) ∧
    (HttpSync.Notify.tick (serving []) (HttpSync.Fetch (serving [1]) (remote "")).1).2
        = [{ Event := { EventType := E_EVENT_TYPE_DELETE } }] ∧
    (HttpSync.Notify.tick (serving [1])
        (HttpSync.Notify.tick (serving [])
          (HttpSync.Fetch (serving [1]) (remote "")).1).1).2 = [] := by
  decide!

/-- C8, as the code has it: `Fetch` leaves `LastBodySHA` unchanged when the URI is empty,
when the transport returns an error and when the fetched body is empty; when the URI is set
and the fetched body is non-empty, `Fetch` stores `generateSha` of the body.  No other
field changes. -/
theorem fetch_fingerprint_effect (net : Net) (fs : HttpSync) :
    (fs.URI = "" → (HttpSync.Fetch net fs).1 = fs) ∧
    ((fs.fetchBodyFromURL net fs.URI).2 ≠ none → (HttpSync.Fetch net fs).1 = fs) ∧
    ((fs.fetchBodyFromURL net fs.URI).1 = [] → (HttpSync.Fetch net fs).1 = fs) ∧
    (fs.URI ≠ "" → (fs.fetchBodyFromURL net fs.URI).1 ≠ [] →
      (HttpSync.Fetch net fs).1
        = { fs with LastBodySHA := generateSha (fs.fetchBodyFromURL net fs.URI).1 }) := by
  have hempty : (fs.fetchBodyFromURL net fs.URI).1 = [] → (HttpSync.Fetch net fs).1 = fs := by
    intro h
    by_cases hu : fs.URI = "" <;> simp [HttpSync.Fetch, hu, h]
  refine ⟨fun hu => by simp [HttpSync.Fetch, hu], ?_, hempty, ?_⟩
  · intro herr
    rcases fetchBodyFromURL_error_body net fs fs.URI with h | h
    · exact absurd h herr
    · exact hempty h
  · intro hu hb
    simp [HttpSync.Fetch, hu, length_ne_zero_of_ne_nil hb]

theorem fetch_fingerprint_effect_witness :
    ((remote "abc").URI ≠ "" ∧
      ((remote "abc").fetchBodyFromURL (serving [1]) (remote "abc").URI).1 ≠ []) ∧
    (HttpSync.Fetch (serving [1]) (remote "abc")).1
      = { remote "abc" with LastBodySHA := generateSha [1] } ∧
    (HttpSync.Fetch (serving []) (remote "abc")).1 = remote "abc" ∧
    (HttpSync.Fetch unreachable (remote "abc")).1 = remote "abc" ∧
    (HttpSync.Fetch (serving [1]) { remote "abc" with URI := "" }).1
      = { remote "abc" with URI := "" } :=
  ⟨⟨by decide, by decide⟩,
   (fetch_fingerprint_effect (serving [1]) (remote "abc")).2.2.2 (by decide) (by decide),
   (fetch_fingerprint_effect (serving []) (remote "abc")).2.2.1 rfl,
   (fetch_fingerprint_effect unreachable (remote "abc")).2.1 (by decide),
   (fetch_fingerprint_effect (serving [1]) { remote "abc" with URI := "" }).1 rfl⟩

/-- C8 fails: `Fetch` on a source with no stored fingerprint whose server answers a
non-empty body stores the fingerprint of that body. -/
theorem fetch_changes_fingerprint_counterexample :
    (remote "").LastBodySHA = "" ∧
    (HttpSync.Fetch (serving [97, 98, 99]) (remote "")).2 = ([97, 98, 99], none) ∧
    (HttpSync.Fetch (serving [97, 98, 99]) (remote "")).1.LastBodySHA
      = "qZk-NkcGgWq6PiVxeFDCbJzQ2J0=" ∧
    (HttpSync.Fetch (serving [97, 98, 99]) (remote "")).1.LastBodySHA
      ≠ (remote "").LastBodySHA := by
  decide!

/-- C9: each lookup returns a provider and a nil error exactly on its registered keys,
`filepath` and `remote` for `findSync`, `json` for `findEvaluator`, `http` for
`findService`; on every other name it returns no provider and the error of that lookup,
`no sync-provider set`, `no evaluator set`, `no service-provider set`. -/
theorem provider_lookup (cfg : Config) (name : String) :
    (((∃ v, findSync cfg name = (some v, none)) ↔ (name = "filepath" ∨ name = "remote")) ∧
     (¬ (name = "filepath" ∨ name = "remote") →
        findSync cfg name = (none, some (errors.New "no sync-provider set")))) ∧
    (((∃ v, findEvaluator name = (some v, none)) ↔ name = "json") ∧
     (name ≠ "json" → findEvaluator name = (none, some (errors.New "no evaluator set")))) ∧
    (((∃ v, findService cfg name = (some v, none)) ↔ name = "http") ∧
     (name ≠ "http" →
        findService cfg name = (none, some (errors.New "no service-provider set")))) := by
  refine ⟨?_, ?_, ?_⟩
  · by_cases h1 : name = "filepath"
    · subst h1
      simp [findSync, List.lookup]
    · by_cases h2 : name = "remote"
      · subst h2
        have hb : ("remote" == "filepath") = false := by decide
        simp [findSync, List.lookup, hb]
      · have hb1 : (name == "filepath") = false := by simpa using h1
        have hb2 : (name == "remote") = false := by simpa using h2
        simp [findSync, List.lookup, hb1, hb2, h1, h2]
  · by_cases h1 : name = "json"
    · subst h1
      simp [findEvaluator, List.lookup]
      exact ⟨.JsonEvaluator {}, trivial⟩
    · have hb1 : (name == "json") = false := by simpa using h1
      simp [findEvaluator, List.lookup, hb1, h1]
  · by_cases h1 : name = "http"
    · subst h1
      simp [findService, List.lookup]
    · have hb1 : (name == "http") = false := by simpa using h1
      simp [findService, List.lookup, hb1, h1]

theorem provider_lookup_witness :
    findSync ⟨"flags.json", 8080, ""⟩ "socket" = (none, some (errors.New "no sync-provider set")) ∧
    findEvaluator "yaml" = (none, some (errors.New "no evaluator set")) ∧
    findService ⟨"flags.json", 8080, ""⟩ "socket"
      = (none, some (errors.New "no service-provider set")) ∧
    (∃ v, findSync ⟨"flags.json", 8080, ""⟩ "remote" = (some v, none)) :=
  ⟨(provider_lookup ⟨"flags.json", 8080, ""⟩ "socket").1.2 (by decide),
   (provider_lookup ⟨"flags.json", 8080, ""⟩ "yaml").2.1.2 (by decide),
   (provider_lookup ⟨"flags.json", 8080, ""⟩ "socket").2.2.2 (by decide),
   (provider_lookup ⟨"flags.json", 8080, ""⟩ "remote").1.1.2 (Or.inr rfl)⟩

/-- C10: on a source with a non-empty URI, when the request is built, sent and its body
read to the end with bytes `B`, `Fetch` returns exactly `B` and a nil error; when building
the request, sending it or reading the body fails, `Fetch` returns that error and the
empty payload, whatever part of the body had been read. -/
theorem fetch_passes_outcome (net : Net) (fs : HttpSync) (hURI : fs.URI ≠ "") :
    (∀ req resp B, http.NewRequest net "GET" fs.URI [] = .ok req →
        Client.Do net fs.Client (fs.addHeaders req) = .ok resp →
        ioutil.ReadAll resp.Body = (B, none) →
        (HttpSync.Fetch net fs).2 = (B, none)) ∧
    (∀ err, http.NewRequest net "GET" fs.URI [] = .error err →
        (HttpSync.Fetch net fs).2 = ([], some err)) ∧
    (∀ req err, http.NewRequest net "GET" fs.URI [] = .ok req →
        Client.Do net fs.Client (fs.addHeaders req) = .error err →
        (HttpSync.Fetch net fs).2 = ([], some err)) ∧
    (∀ req resp part err, http.NewRequest net "GET" fs.URI [] = .ok req →
        Client.Do net fs.Client (fs.addHeaders req) = .ok resp →
        ioutil.ReadAll resp.Body = (part, some err) →
        (HttpSync.Fetch net fs).2 = ([], some err)) := by
  refine ⟨?_, ?_, ?_, ?_⟩
  · intro req resp B h1 h2 h3
    simp [HttpSync.Fetch, hURI, HttpSync.fetchBodyFromURL, h1, h2, h3]
  · intro err h1
    simp [HttpSync.Fetch, hURI, HttpSync.fetchBodyFromURL, h1]
  · intro req err h1 h2
    simp [HttpSync.Fetch, hURI, HttpSync.fetchBodyFromURL, h1, h2]
  · intro req resp part err h1 h2 h3
    simp [HttpSync.Fetch, hURI, HttpSync.fetchBodyFromURL, h1, h2, h3]

theorem fetch_passes_outcome_witness :
    (remote "").URI ≠ "" ∧
    (HttpSync.Fetch (serving [97, 98, 99]) (remote "")).2 = ([97, 98, 99], none) ∧
    (HttpSync.Fetch rejecting (remote "")).2 = ([], some (errors.New "invalid URL")) ∧
    (HttpSync.Fetch unreachable (remote "")).2
      = ([], some (errors.New "connection refused")) ∧
    (HttpSync.Fetch (breaking [97, 98]) (remote "")).2
      = ([], some (errors.New "unexpected EOF")) :=
  ⟨by decide,
   (fetch_passes_outcome (serving [97, 98, 99]) (remote "") (by decide)).1 _ _ _ rfl rfl rfl,
   (fetch_passes_outcome rejecting (remote "") (by decide)).2.1 _ rfl,
   (fetch_passes_outcome unreachable (remote "") (by decide)).2.2.1 _ _ rfl rfl,
   (fetch_passes_outcome (breaking [97, 98]) (remote "") (by decide)).2.2.2 _ _ [97, 98] _
     rfl rfl rfl⟩

end Flagd
